import Mathlib

/-!
Verification of the biggee store-analysis pipeline against its
natural-language specification.

The source is a set of Python ETL scripts (todc_analysis.py,
store_wise_analysis.py, august_analysis.py, extract_insights.py) that
aggregate per-store financial, marketing and sales facts over fixed
calendar windows and compare the windows per store.  The relevant
computations are pure tabular arithmetic, embedded here over the exact
rationals.  Per-store aggregates for a single metric are modelled as
association lists from store id to value, mirroring the dataframe
indexed lookups of the source.  The terminal presentational rounding of
emitted tables (pandas .round(2), applied uniformly after all values
are computed) is not modelled: every claim is about the computed
values, and the specification never mentions rounding.
-/

namespace Biggee

/-- One per-store aggregate for a single tracked metric: store id paired
with the metric value, as produced by the Metric Aggregator.  Mirrors a
dataframe column indexed by Store ID. -/
abbrev Agg := List (Nat × ℚ)

/-- Lookup of a store in an aggregate, defaulting a missing store to 0.
Mirrors the source pattern
pre_val = pre_data[metric].iloc[0] if len(pre_data) > 0 else 0
(store_wise_analysis.py line 278) and
pre_val = pre_metrics.loc[store_id, metric] if store_id in pre_metrics.index else 0
(todc_analysis.py line 895). -/
def lookupOr0 (agg : Agg) (sid : Nat) : ℚ :=
  match agg.find? (fun p => p.1 == sid) with
  | some p => p.2
  | none => 0

/-- The keys of an aggregate (the Store ID column). -/
def keysOf (agg : Agg) : List Nat := agg.map Prod.fst

/-- Union of the store keys of two aggregates.  Mirrors
all_store_ids = set(pre_metrics[...]) | set(post_metrics[...])
(store_wise_analysis.py line 251, todc_analysis.py line 879). -/
def unionKeys (pre post : Agg) : List Nat :=
  (keysOf pre ++ keysOf post).dedup

/-- Growth percentage as computed by
StoreWiseAnalyzer.calculate_store_growth_metrics
(store_wise_analysis.py lines 285-287):
((post_val - pre_val) / pre_val * 100) if pre_val > 0 else 0. -/
def growth_percent (preVal postVal : ℚ) : ℚ :=
  if preVal > 0 then (postVal - preVal) / preVal * 100 else 0

/-- Delta percentage as computed by
TODCAnalyzer.create_store_comparison_table
(todc_analysis.py line 907):
(delta / pre_val * 100) if pre_val != 0 else 0. -/
def delta_percent_of (preVal postVal : ℚ) : ℚ :=
  if preVal ≠ 0 then (postVal - preVal) / preVal * 100 else 0

/-- One row of the store-wise growth table, for one store and one
tracked metric. -/
structure GrowthEntry where
  storeId : Nat
  preVal : ℚ
  postVal : ℚ
  delta : ℚ
  growthPct : ℚ
  deriving Repr, DecidableEq

/-- Per-store, per-metric body of
StoreWiseAnalyzer.calculate_store_growth_metrics
(store_wise_analysis.py lines 277-287): missing sides default to 0,
Delta = post - pre, Growth_Percent guarded by pre_val > 0. -/
def growthEntry (pre post : Agg) (sid : Nat) : GrowthEntry :=
  let preVal := lookupOr0 pre sid
  let postVal := lookupOr0 post sid
  ⟨sid, preVal, postVal, postVal - preVal, growth_percent preVal postVal⟩

/-- Full output of StoreWiseAnalyzer.calculate_store_growth_metrics for
one tracked metric: one row per store in the union of the pre and post
key sets (store_wise_analysis.py lines 251-305). -/
def calculate_store_growth_metrics (pre post : Agg) : List GrowthEntry :=
  (unionKeys pre post).map (growthEntry pre post)

/-- One cell group of the TODC store comparison table for one store and
one metric: Pre, Post, Delta, Delta_Percent. -/
structure ComparisonCells where
  preVal : ℚ
  postVal : ℚ
  delta : ℚ
  deltaPct : ℚ
  deriving Repr, DecidableEq

/-- Per-store, per-metric body of
TODCAnalyzer.create_store_comparison_table
(todc_analysis.py lines 892-908): missing sides default to 0,
Delta = post - pre, Delta_Percent guarded by pre_val != 0. -/
def comparisonCells (pre post : Agg) (sid : Nat) : ComparisonCells :=
  let preVal := lookupOr0 pre sid
  let postVal := lookupOr0 post sid
  ⟨preVal, postVal, postVal - preVal, delta_percent_of preVal postVal⟩

/-- The inner merge of TODCAnalyzer.calculate_store_growth
(todc_analysis.py lines 421-426): pre_performance.merge(post_performance,
left_index=True, right_index=True) keeps only stores present in BOTH
aggregates; the result pairs each such store with its pre and post
values. -/
def todcMerged (pre post : Agg) : List (Nat × ℚ × ℚ) :=
  pre.filterMap (fun p =>
    match post.find? (fun q => q.1 == p.1) with
    | some q => some (p.1, p.2, q.2)
    | none => none)

/-- TODCAnalyzer.calculate_store_growth (todc_analysis.py lines 415-445):
returns an empty result when either side is empty, otherwise the inner
merge of the two aggregates (the growth columns are computed on the
merged rows). -/
def calculate_store_growth (pre post : Agg) : List (Nat × ℚ × ℚ) :=
  if pre.isEmpty ∨ post.isEmpty then [] else todcMerged pre post

/-- The store keys surviving in the output of calculate_store_growth. -/
def todcGrowthKeys (pre post : Agg) : List Nat :=
  (calculate_store_growth pre post).map Prod.fst

/-! ## Per-store period aggregation (StoreWiseAnalyzer) -/

/-- One financial Order row restricted to the fields used by the
per-store aggregation (store_wise_analysis.py lines 178-197):
Subtotal, Net total, the marketing fee column and the merchant-funded
customer discount column (each already resolved through the column-name
fallback, 0-valued when absent). -/
structure FinRow where
  subtotal : ℚ
  netTotal : ℚ
  marketingFees : ℚ
  customerDiscounts : ℚ
  deriving Repr, DecidableEq

/-- One sales-table row restricted to the fields used in
store_wise_analysis.py lines 199-210: Gross Sales,
Total Delivered or Picked Up Orders, AOV. -/
structure SalesRow where
  grossSales : ℚ
  deliveredOrders : ℚ
  aov : ℚ
  deriving Repr, DecidableEq

/-- One combined marketing row restricted to the fields used in
store_wise_analysis.py lines 212-221: Sales, Orders and the
merchant-funded customer discount. -/
structure MktRow where
  sales : ℚ
  orders : ℚ
  fundedDiscounts : ℚ
  deriving Repr, DecidableEq

/-- The per-store metric record built by
StoreWiseAnalyzer.analyze_store_performance_by_period
(store_wise_analysis.py lines 161-176), numeric fields only. -/
structure StoreMetrics where
  Overall_Sales : ℚ
  Total_Orders : ℚ
  Marketing_Driven_Sales : ℚ
  Organic_Sales : ℚ
  Marketing_Spend : ℚ
  Marketing_Orders : ℚ
  Net_Payout : ℚ
  Avg_Order_Value : ℚ
  Marketing_ROI : ℚ
  Marketing_Percentage : ℚ
  Organic_Percentage : ℚ
  deriving Repr, DecidableEq

/-- Sum of a rational-valued field over a list of rows. -/
def sumBy {α : Type} (f : α → ℚ) (l : List α) : ℚ := (l.map f).sum

/-- The all-zero initial per-store record
(store_wise_analysis.py lines 161-176). -/
def initMetrics : StoreMetrics := ⟨0, 0, 0, 0, 0, 0, 0, 0, 0, 0, 0⟩

/-- Financial block of the per-store aggregation
(store_wise_analysis.py lines 178-197): when the store has Order rows,
fill overall sales (sum of Subtotal), order count, net payout, average
order value (mean of Subtotal) and marketing spend (marketing fees plus
merchant-funded discounts). -/
def financial_block (orders : List FinRow) (m : StoreMetrics) : StoreMetrics :=
  if 0 < orders.length then
    { m with
      Overall_Sales := sumBy FinRow.subtotal orders,
      Total_Orders := (orders.length : ℚ),
      Net_Payout := sumBy FinRow.netTotal orders,
      Avg_Order_Value := sumBy FinRow.subtotal orders / (orders.length : ℚ),
      Marketing_Spend :=
        sumBy FinRow.marketingFees orders + sumBy FinRow.customerDiscounts orders }
  else m

/-- Sales block of the per-store aggregation
(store_wise_analysis.py lines 199-210): when the store has sales rows
and their gross total exceeds the current overall sales, override
overall sales, order count (sum of delivered orders) and average order
value (mean of the AOV column). -/
def sales_block (sales : List SalesRow) (m : StoreMetrics) : StoreMetrics :=
  if 0 < sales.length then
    if sumBy SalesRow.grossSales sales > m.Overall_Sales then
      { m with
        Overall_Sales := sumBy SalesRow.grossSales sales,
        Total_Orders := sumBy SalesRow.deliveredOrders sales,
        Avg_Order_Value := sumBy SalesRow.aov sales / (sales.length : ℚ) }
    else m
  else m

/-- Marketing block of the per-store aggregation
(store_wise_analysis.py lines 212-221): when the store has marketing
rows, fill marketing-driven sales and marketing orders, and replace the
marketing spend when the marketing-sourced spend is larger. -/
def marketing_block (marketing : List MktRow) (m : StoreMetrics) : StoreMetrics :=
  if 0 < marketing.length then
    { m with
      Marketing_Driven_Sales := sumBy MktRow.sales marketing,
      Marketing_Orders := sumBy MktRow.orders marketing,
      Marketing_Spend :=
        if sumBy MktRow.fundedDiscounts marketing > m.Marketing_Spend then
          sumBy MktRow.fundedDiscounts marketing
        else m.Marketing_Spend }
  else m

/-- Organic-sales step (store_wise_analysis.py lines 223-226):
Organic_Sales = Overall_Sales - Marketing_Driven_Sales, unguarded. -/
def organic_block (m : StoreMetrics) : StoreMetrics :=
  { m with Organic_Sales := m.Overall_Sales - m.Marketing_Driven_Sales }

/-- Percentage step (store_wise_analysis.py lines 228-235): marketing
and organic percentages of overall sales, only when overall sales is
positive. -/
def percentage_block (m : StoreMetrics) : StoreMetrics :=
  if m.Overall_Sales > 0 then
    { m with
      Marketing_Percentage := m.Marketing_Driven_Sales / m.Overall_Sales * 100,
      Organic_Percentage := m.Organic_Sales / m.Overall_Sales * 100 }
  else m

/-- ROI step (store_wise_analysis.py lines 237-242): marketing ROI,
only when marketing spend is positive. -/
def roi_block (m : StoreMetrics) : StoreMetrics :=
  if m.Marketing_Spend > 0 then
    { m with
      Marketing_ROI :=
        (m.Marketing_Driven_Sales - m.Marketing_Spend) / m.Marketing_Spend * 100 }
  else m

/-- Per-store body of
StoreWiseAnalyzer.analyze_store_performance_by_period
(store_wise_analysis.py lines 160-242) for one store id: the three row
lists are the rows of the period slice belonging to that store, and the
blocks run in source order over the mutable per-store record. -/
def analyze_store_performance_by_period
    (orders : List FinRow) (sales : List SalesRow) (marketing : List MktRow) :
    StoreMetrics :=
  roi_block (percentage_block (organic_block
    (marketing_block marketing (sales_block sales (financial_block orders initMetrics)))))

/-! ## Insight generation (StoreWiseAnalyzer.generate_store_insights) -/

/-- The growth quantities of one store consumed by
StoreWiseAnalyzer.generate_store_insights
(store_wise_analysis.py lines 313-397). -/
structure GrowthRec where
  salesGrowth : ℚ
  marketingGrowth : ℚ
  roiDelta : ℚ
  organicGrowth : ℚ
  orderGrowth : ℚ
  aovGrowth : ℚ
  spendGrowth : ℚ
  deriving Repr, DecidableEq

/-- The classification part of one store insight record:
Overall_Performance and Priority_Level.  The free-text Key_Insights and
Recommendations lists are not modelled; no branch of the source touches
the two classification fields outside the branches embedded below. -/
structure InsightRec where
  Overall_Performance : String
  Priority_Level : String
  deriving Repr, DecidableEq

/-- Per-store body of StoreWiseAnalyzer.generate_store_insights
(store_wise_analysis.py lines 313-397), restricted to the
classification fields.  Priority_Level starts at Medium; the Poor sales
branch sets it to High, and the third marketing branch escalates it to
High when it is not already High.  The organic, order-volume, AOV and
spend branches only append text and are therefore omitted. -/
def generate_store_insights (g : GrowthRec) : InsightRec :=
  let performance :=
    if g.salesGrowth > 50 then "Excellent"
    else if g.salesGrowth > 20 then "Good"
    else if g.salesGrowth > 0 then "Moderate"
    else "Poor"
  let priority0 : String :=
    if g.salesGrowth > 50 then "Medium"
    else if g.salesGrowth > 20 then "Medium"
    else if g.salesGrowth > 0 then "Medium"
    else "High"
  let priority1 : String :=
    if g.marketingGrowth > 30 ∧ g.roiDelta > 0 then priority0
    else if g.marketingGrowth > 0 ∧ g.roiDelta > 0 then priority0
    else if g.marketingGrowth < 0 ∨ g.roiDelta < -10 then
      (if priority0 ≠ "High" then "High" else priority0)
    else priority0
  ⟨performance, priority1⟩

/-! ## August analysis (AugustAnalyzer) -/

/-- One financial Order row restricted to the fields aggregated by
AugustAnalyzer.analyze_august_financial_data
(august_analysis.py lines 115-120): Subtotal, Commission, Net total. -/
structure OrderRow where
  subtotal : ℚ
  commission : ℚ
  netTotal : ℚ
  deriving Repr, DecidableEq

/-- Per-store financial aggregate of
AugustAnalyzer.analyze_august_financial_data
(august_analysis.py lines 115-138) as
(Total_Sales, Total_Orders, Avg_Order_Value): the sum of subtotals, the
row count, and their quotient (line 136-138).  A groupby group always
holds at least one row, so the claims below carry a nonempty
hypothesis. -/
def analyze_august_financial_data (rows : List OrderRow) : ℚ × ℚ × ℚ :=
  let totalSales := sumBy OrderRow.subtotal rows
  let totalOrders := (rows.length : ℚ)
  (totalSales, totalOrders, totalSales / totalOrders)

/-- Derived-sales step of
AugustAnalyzer.create_comprehensive_august_analysis
(august_analysis.py lines 357-381): Total_Sales is the maximum of the
financial-sourced and sales-table-sourced totals, and Organic_Sales is
total minus marketing ONLY when the total is positive, else 0
(line 374).  Returns (Total_Sales, Organic_Sales). -/
def create_comprehensive_august_analysis
    (financialSales salesTotalSales marketingSales : ℚ) : ℚ × ℚ :=
  let totalSales := max financialSales salesTotalSales
  let organicSales := if totalSales > 0 then totalSales - marketingSales else 0
  (totalSales, organicSales)

/-! ## Division guards in rate, ROI and growth computations -/

/-- One side of TODCAnalyzer.calculate_marketing_roi
(todc_analysis.py lines 343-349):
roi = ((total_sales - total_cost) / total_cost * 100) if total_cost > 0 else 0. -/
def calculate_marketing_roi_side (totalCost totalSales : ℚ) : ℚ :=
  if totalCost > 0 then (totalSales - totalCost) / totalCost * 100 else 0

/-- The avg_commission_rate metric of
TODCAnalyzer.calculate_financial_period_metrics
(todc_analysis.py line 195):
(orders_df[Commission].abs().sum() / orders_df[Subtotal].sum()) * 100,
a raw division with no guard on the subtotal sum.  The embedding makes
the unguarded division observable by returning none exactly when the
denominator is 0 (pandas would emit a non-finite value there, not 0). -/
def avg_commission_rate (rows : List OrderRow) : Option ℚ :=
  if sumBy OrderRow.subtotal rows = 0 then none
  else some (sumBy (fun r => |r.commission|) rows / sumBy OrderRow.subtotal rows * 100)

/-- The per-campaign ROI of TODCAnalyzer.analyze_campaign_performance
(todc_analysis.py lines 314-317):
(Sales - Total_Cost) / Total_Cost * 100, a raw division with no guard
on Total_Cost; none marks the zero-denominator case. -/
def campaign_roi (sales totalCost : ℚ) : Option ℚ :=
  if totalCost = 0 then none
  else some ((sales - totalCost) / totalCost * 100)

/-! ## Workbook sheets: writer versus reader -/

/-- The sheet names written by StoreWiseAnalyzer.export_to_excel, in
order of the to_excel calls (store_wise_analysis.py lines 500-562). -/
def export_to_excel_sheets : List String :=
  ["Pre_TODC_Metrics", "Post_TODC_Metrics", "Growth_Metrics", "Store_Insights",
   "Summary_Statistics", "Top_10_Performers", "Bottom_10_Performers"]

/-- The sheet names opened by extract_insights_from_excel
(extract_insights.py lines 16-20). -/
def extract_insights_sheets : List String :=
  ["Growth_Metrics", "Store_Insights", "Summary_Statistics",
   "Top_10_Performers", "Bottom_10_Performers"]

-- Basic lemmas about lookups and key sets.

theorem lookupOr0_eq_zero_of_not_mem (agg : Agg) (sid : Nat)
    (h : sid ∉ keysOf agg) : lookupOr0 agg sid = 0 := by
  unfold lookupOr0
  have hfind : agg.find? (fun p => p.1 == sid) = none := by
    rw [List.find?_eq_none]
    intro p hp hbeq
    simp only [beq_iff_eq] at hbeq
    exact h (List.mem_map.mpr ⟨p, hp, hbeq⟩)
  rw [hfind]

theorem mem_unionKeys_iff (pre post : Agg) (sid : Nat) :
    sid ∈ unionKeys pre post ↔ sid ∈ keysOf pre ∨ sid ∈ keysOf post := by
  unfold unionKeys
  rw [List.mem_dedup, List.mem_append]

theorem growth_percent_of_nonpos (p q : ℚ) (h : p ≤ 0) :
    growth_percent p q = 0 := by
  unfold growth_percent
  rw [if_neg (not_lt.mpr h)]

/-- C1: for every period comparison and every store in the union of the
pre-period and post-period store keys, and for every tracked metric,
the reported Delta equals exactly the post-period value minus the
pre-period value with a missing side taken as 0 — both in the
store-wise growth table and in the TODC store comparison table. -/
theorem C1_delta_exact (pre post : Agg) (sid : Nat)
    (h : sid ∈ unionKeys pre post) :
    (growthEntry pre post sid).delta = lookupOr0 post sid - lookupOr0 pre sid ∧
    (comparisonCells pre post sid).delta = lookupOr0 post sid - lookupOr0 pre sid :=
  ⟨rfl, rfl⟩

theorem C1_delta_exact_witness :
    (1 ∈ unionKeys [(1, (10 : ℚ))] [(2, (5 : ℚ))]) ∧
    (growthEntry [(1, (10 : ℚ))] [(2, (5 : ℚ))] 1).delta =
      lookupOr0 [(2, (5 : ℚ))] 1 - lookupOr0 [(1, (10 : ℚ))] 1 :=
  ⟨by decide, (C1_delta_exact [(1, (10 : ℚ))] [(2, (5 : ℚ))] 1 (by decide)).1⟩

/-- C2 as stated is false: in the store-wise growth table the
percentage is guarded by pre_val > 0, not pre_val != 0, so for a
negative pre-period value (store 7 with pre = -10, post = 0) the
reported Growth_Percent is 0 although Delta / Pre * 100 = -100. -/
theorem C2_counterexample :
    (growthEntry [(7, (-10 : ℚ))] [(7, (0 : ℚ))] 7).growthPct = 0 ∧
    (growthEntry [(7, (-10 : ℚ))] [(7, (0 : ℚ))] 7).delta / (-10) * 100 = -100 := by
  constructor
  · rfl
  · norm_num [growthEntry, lookupOr0, List.find?]

/-- C2 amended: in the TODC store comparison table, Delta_Percent
equals Delta / Pre * 100 whenever Pre is nonzero (including negative
Pre) and is 0 when Pre = 0; in the store-wise growth table,
Growth_Percent equals Delta / Pre * 100 only when Pre > 0 and is 0
whenever Pre <= 0, in particular for every negative pre-period value. -/
theorem C2_delta_percent_guards (pre post : Agg) (sid : Nat) :
    (lookupOr0 pre sid ≠ 0 →
      (comparisonCells pre post sid).deltaPct =
        (comparisonCells pre post sid).delta / lookupOr0 pre sid * 100) ∧
    (lookupOr0 pre sid = 0 → (comparisonCells pre post sid).deltaPct = 0) ∧
    (lookupOr0 pre sid > 0 →
      (growthEntry pre post sid).growthPct =
        (growthEntry pre post sid).delta / lookupOr0 pre sid * 100) ∧
    (lookupOr0 pre sid ≤ 0 → (growthEntry pre post sid).growthPct = 0) := by
  refine ⟨?_, ?_, ?_, ?_⟩
  · intro h
    simp only [comparisonCells, delta_percent_of, if_pos h]
  · intro h
    simp only [comparisonCells, delta_percent_of, h, ne_eq, not_true_eq_false,
      if_false]
  · intro h
    simp only [growthEntry, growth_percent, if_pos h]
  · intro h
    exact growth_percent_of_nonpos _ _ h

theorem C2_delta_percent_guards_witness :
    ((comparisonCells [(1, (-10 : ℚ))] [(1, (0 : ℚ))] 1).deltaPct =
      (comparisonCells [(1, (-10 : ℚ))] [(1, (0 : ℚ))] 1).delta /
        lookupOr0 [(1, (-10 : ℚ))] 1 * 100) ∧
    ((growthEntry [(1, (-10 : ℚ))] [(1, (0 : ℚ))] 1).growthPct = 0) := by
  constructor
  · exact (C2_delta_percent_guards [(1, (-10 : ℚ))] [(1, (0 : ℚ))] 1).1 (by decide)
  · exact (C2_delta_percent_guards [(1, (-10 : ℚ))] [(1, (0 : ℚ))] 1).2.2.2 (by decide)

/-- C3 as stated is false for TODCAnalyzer.calculate_store_growth: its
inner merge drops any store present on only one side.  With
pre = {store 1} and post = {store 1, store 2}, store 2 lies in the
union of the keys but produces no output row. -/
theorem C3_counterexample :
    2 ∈ unionKeys [(1, (10 : ℚ))] [(1, (20 : ℚ)), (2, (30 : ℚ))] ∧
    2 ∉ todcGrowthKeys [(1, (10 : ℚ))] [(1, (20 : ℚ)), (2, (30 : ℚ))] := by
  decide

/-- C3 amended: the store-wise growth table
(StoreWiseAnalyzer.calculate_store_growth_metrics) produces one row for
every store in the outer union of the pre and post keys, and a store
absent from the pre period gets Pre = 0 and Growth_Percent = 0 rather
than being dropped; TODCAnalyzer.calculate_store_growth, by contrast,
inner-joins the two aggregates and keeps only stores present in both. -/
theorem C3_union_rows (pre post : Agg) (sid : Nat)
    (h : sid ∈ unionKeys pre post) :
    growthEntry pre post sid ∈ calculate_store_growth_metrics pre post ∧
    (sid ∉ keysOf pre →
      (growthEntry pre post sid).preVal = 0 ∧
      (growthEntry pre post sid).growthPct = 0) ∧
    (∀ sid2, sid2 ∈ todcGrowthKeys pre post → sid2 ∈ keysOf pre ∧ sid2 ∈ keysOf post) := by
  refine ⟨List.mem_map_of_mem _ h, ?_, ?_⟩
  · intro hpre
    have hz : lookupOr0 pre sid = 0 := lookupOr0_eq_zero_of_not_mem pre sid hpre
    constructor
    · exact hz
    · show growth_percent (lookupOr0 pre sid) (lookupOr0 post sid) = 0
      rw [hz]
      exact growth_percent_of_nonpos _ _ le_rfl
  · intro sid2 hmem
    unfold todcGrowthKeys calculate_store_growth at hmem
    by_cases hemp : pre.isEmpty ∨ post.isEmpty
    · rw [if_pos hemp] at hmem
      simp at hmem
    · rw [if_neg hemp] at hmem
      obtain ⟨⟨k, v, w⟩, hk, hfst⟩ := List.mem_map.mp hmem
      unfold todcMerged at hk
      obtain ⟨⟨k1, v1⟩, hk1, hmatch⟩ := List.mem_filterMap.mp hk
      cases hfind : List.find? (fun q => q.1 == k1) post with
      | none => rw [hfind] at hmatch; exact absurd hmatch (by simp)
      | some q =>
        rw [hfind] at hmatch
        obtain ⟨hk', hv', hw'⟩ := Prod.mk.injEq .. ▸ (Option.some.injEq .. ▸ hmatch)
        subst hfst
        constructor
        · exact hk' ▸ List.mem_map_of_mem _ hk1
        · have hqmem := List.mem_of_find?_eq_some hfind
          have hqeq : q.1 = k1 := by
            have := List.find?_some hfind
            simpa [beq_iff_eq] using this
          exact hk' ▸ hqeq ▸ List.mem_map_of_mem _ hqmem

theorem C3_union_rows_witness :
    growthEntry [(1, (10 : ℚ))] [(2, (5 : ℚ))] 2 ∈
      calculate_store_growth_metrics [(1, (10 : ℚ))] [(2, (5 : ℚ))] ∧
    (growthEntry [(1, (10 : ℚ))] [(2, (5 : ℚ))] 2).preVal = 0 ∧
    (growthEntry [(1, (10 : ℚ))] [(2, (5 : ℚ))] 2).growthPct = 0 := by
  have h := C3_union_rows [(1, (10 : ℚ))] [(2, (5 : ℚ))] 2 (by decide)
  exact ⟨h.1, h.2.1 (by decide)⟩

/-- C4: the performance tier is a pure function of
Overall_Sales_Growth_Percent alone, takes values in
Excellent/Good/Moderate/Poor, and has strict breakpoints: 51 gives
Excellent, 50 gives Good, 20 gives Moderate, 0 gives Poor. -/
theorem C4_performance_tier :
    (∀ g h : GrowthRec, g.salesGrowth = h.salesGrowth →
      (generate_store_insights g).Overall_Performance =
        (generate_store_insights h).Overall_Performance) ∧
    (generate_store_insights ⟨51, 0, 0, 0, 0, 0, 0⟩).Overall_Performance = "Excellent" ∧
    (generate_store_insights ⟨50, 0, 0, 0, 0, 0, 0⟩).Overall_Performance = "Good" ∧
    (generate_store_insights ⟨20, 0, 0, 0, 0, 0, 0⟩).Overall_Performance = "Moderate" ∧
    (generate_store_insights ⟨0, 0, 0, 0, 0, 0, 0⟩).Overall_Performance = "Poor" ∧
    (∀ g : GrowthRec, (generate_store_insights g).Overall_Performance ∈
      (["Excellent", "Good", "Moderate", "Poor"] : List String)) := by
  refine ⟨?_, by decide, by decide, by decide, by decide, ?_⟩
  · intro g h heq
    simp only [generate_store_insights]
    rw [heq]
  · intro g
    simp only [generate_store_insights]
    split_ifs <;> simp

theorem C4_performance_tier_witness :
    (generate_store_insights ⟨51, 1, 2, 3, 4, 5, 6⟩).Overall_Performance =
      (generate_store_insights ⟨51, 0, 0, 0, 0, 0, 0⟩).Overall_Performance ∧
    (generate_store_insights ⟨51, 1, 2, 3, 4, 5, 6⟩).Overall_Performance ∈
      (["Excellent", "Good", "Moderate", "Poor"] : List String) :=
  ⟨C4_performance_tier.1 ⟨51, 1, 2, 3, 4, 5, 6⟩ ⟨51, 0, 0, 0, 0, 0, 0⟩ rfl,
   C4_performance_tier.2.2.2.2.2 ⟨51, 1, 2, 3, 4, 5, 6⟩⟩

/-- C10: Priority_Level is always High or Medium, depends only on
Overall_Sales_Growth_Percent, Marketing_Driven_Sales_Growth_Percent and
Marketing_ROI_Delta, and once the Poor sales branch sets it to High
(sales growth at most 0) no later branch lowers it back to Medium. -/
theorem C10_priority_level :
    (∀ g : GrowthRec, (generate_store_insights g).Priority_Level ∈
      (["High", "Medium"] : List String)) ∧
    (∀ g h : GrowthRec, g.salesGrowth = h.salesGrowth →
      g.marketingGrowth = h.marketingGrowth → g.roiDelta = h.roiDelta →
      (generate_store_insights g).Priority_Level =
        (generate_store_insights h).Priority_Level) ∧
    (∀ g : GrowthRec, g.salesGrowth ≤ 0 →
      (generate_store_insights g).Priority_Level = "High") := by
  refine ⟨?_, ?_, ?_⟩
  · intro g
    simp only [generate_store_insights]
    split_ifs <;> simp
  · intro g h h1 h2 h3
    simp only [generate_store_insights]
    rw [h1, h2, h3]
  · intro g hle
    have h50 : ¬ g.salesGrowth > 50 := by linarith
    have h20 : ¬ g.salesGrowth > 20 := by linarith
    have h0 : ¬ g.salesGrowth > 0 := by linarith
    simp only [generate_store_insights, if_neg h50, if_neg h20, if_neg h0]
    split_ifs <;> simp_all

theorem C10_priority_level_witness :
    (generate_store_insights ⟨0, 5, 5, 1, 1, 1, 1⟩).Priority_Level ∈
      (["High", "Medium"] : List String) ∧
    (generate_store_insights ⟨0, 5, 5, 1, 1, 1, 1⟩).Priority_Level =
      (generate_store_insights ⟨0, 5, 5, 2, 2, 2, 2⟩).Priority_Level ∧
    (generate_store_insights ⟨0, 5, 5, 1, 1, 1, 1⟩).Priority_Level = "High" :=
  ⟨C10_priority_level.1 ⟨0, 5, 5, 1, 1, 1, 1⟩,
   C10_priority_level.2.1 ⟨0, 5, 5, 1, 1, 1, 1⟩ ⟨0, 5, 5, 2, 2, 2, 2⟩ rfl rfl rfl,
   C10_priority_level.2.2 ⟨0, 5, 5, 1, 1, 1, 1⟩ le_rfl⟩


-- Per-block field preservation lemmas for the store-wise per-store
-- aggregation: each block only writes the fields its source block
-- writes.

theorem roi_block_fields (m : StoreMetrics) :
    (roi_block m).Overall_Sales = m.Overall_Sales ∧
    (roi_block m).Total_Orders = m.Total_Orders ∧
    (roi_block m).Avg_Order_Value = m.Avg_Order_Value ∧
    (roi_block m).Organic_Sales = m.Organic_Sales ∧
    (roi_block m).Marketing_Driven_Sales = m.Marketing_Driven_Sales := by
  unfold roi_block
  split_ifs <;> exact ⟨rfl, rfl, rfl, rfl, rfl⟩

theorem percentage_block_fields (m : StoreMetrics) :
    (percentage_block m).Overall_Sales = m.Overall_Sales ∧
    (percentage_block m).Total_Orders = m.Total_Orders ∧
    (percentage_block m).Avg_Order_Value = m.Avg_Order_Value ∧
    (percentage_block m).Organic_Sales = m.Organic_Sales ∧
    (percentage_block m).Marketing_Driven_Sales = m.Marketing_Driven_Sales := by
  unfold percentage_block
  split_ifs <;> exact ⟨rfl, rfl, rfl, rfl, rfl⟩

theorem organic_block_fields (m : StoreMetrics) :
    (organic_block m).Overall_Sales = m.Overall_Sales ∧
    (organic_block m).Total_Orders = m.Total_Orders ∧
    (organic_block m).Avg_Order_Value = m.Avg_Order_Value ∧
    (organic_block m).Organic_Sales =
      m.Overall_Sales - m.Marketing_Driven_Sales ∧
    (organic_block m).Marketing_Driven_Sales = m.Marketing_Driven_Sales :=
  ⟨rfl, rfl, rfl, rfl, rfl⟩

theorem marketing_block_fields (mk : List MktRow) (m : StoreMetrics) :
    (marketing_block mk m).Overall_Sales = m.Overall_Sales ∧
    (marketing_block mk m).Total_Orders = m.Total_Orders ∧
    (marketing_block mk m).Avg_Order_Value = m.Avg_Order_Value := by
  unfold marketing_block
  split_ifs <;> exact ⟨rfl, rfl, rfl⟩

-- The core sales fields of the full per-store aggregation are those
-- produced by the financial and sales blocks alone.
theorem analyze_core_fields (o : List FinRow) (s : List SalesRow)
    (mk : List MktRow) :
    (analyze_store_performance_by_period o s mk).Overall_Sales =
      (sales_block s (financial_block o initMetrics)).Overall_Sales ∧
    (analyze_store_performance_by_period o s mk).Total_Orders =
      (sales_block s (financial_block o initMetrics)).Total_Orders ∧
    (analyze_store_performance_by_period o s mk).Avg_Order_Value =
      (sales_block s (financial_block o initMetrics)).Avg_Order_Value := by
  unfold analyze_store_performance_by_period
  refine ⟨?_, ?_, ?_⟩
  · rw [(roi_block_fields _).1, (percentage_block_fields _).1,
      (organic_block_fields _).1, (marketing_block_fields mk _).1]
  · rw [(roi_block_fields _).2.1, (percentage_block_fields _).2.1,
      (organic_block_fields _).2.1, (marketing_block_fields mk _).2.1]
  · rw [(roi_block_fields _).2.2.1, (percentage_block_fields _).2.2.1,
      (organic_block_fields _).2.2.1, (marketing_block_fields mk _).2.2]

theorem financial_block_overall (o : List FinRow) :
    (financial_block o initMetrics).Overall_Sales = sumBy FinRow.subtotal o := by
  unfold financial_block
  split_ifs with h
  · rfl
  · show (0 : ℚ) = sumBy FinRow.subtotal o
    have ho : o = [] := List.length_eq_zero.mp (Nat.eq_zero_of_not_pos h)
    rw [ho]; rfl

theorem financial_block_fields (o : List FinRow) (ho : o ≠ []) :
    (financial_block o initMetrics).Overall_Sales = sumBy FinRow.subtotal o ∧
    (financial_block o initMetrics).Total_Orders = (o.length : ℚ) ∧
    (financial_block o initMetrics).Avg_Order_Value =
      sumBy FinRow.subtotal o / (o.length : ℚ) := by
  unfold financial_block
  rw [if_pos (List.length_pos.mpr ho)]
  exact ⟨rfl, rfl, rfl⟩

theorem sales_block_no_override (s : List SalesRow) (m : StoreMetrics)
    (h : sumBy SalesRow.grossSales s ≤ m.Overall_Sales) :
    sales_block s m = m := by
  unfold sales_block
  split_ifs with h1 h2
  · exact absurd h2 (not_lt.mpr h)
  · rfl
  · rfl

theorem sales_block_override (s : List SalesRow) (m : StoreMetrics)
    (hs' : s ≠ []) (h : sumBy SalesRow.grossSales s > m.Overall_Sales) :
    (sales_block s m).Overall_Sales = sumBy SalesRow.grossSales s ∧
    (sales_block s m).Total_Orders = sumBy SalesRow.deliveredOrders s ∧
    (sales_block s m).Avg_Order_Value =
      sumBy SalesRow.aov s / (s.length : ℚ) := by
  unfold sales_block
  rw [if_pos (List.length_pos.mpr hs'), if_pos h]
  exact ⟨rfl, rfl, rfl⟩

-- Financial-branch field characterization of the store-wise per-store
-- aggregation when the sales-table total does not exceed the financial
-- total (so the override of store_wise_analysis.py lines 204-207 does
-- not fire).
theorem storewise_financial_fields (o : List FinRow) (s : List SalesRow)
    (mk : List MktRow) (ho : o ≠ [])
    (hs : sumBy SalesRow.grossSales s ≤ sumBy FinRow.subtotal o) :
    (analyze_store_performance_by_period o s mk).Overall_Sales =
      sumBy FinRow.subtotal o ∧
    (analyze_store_performance_by_period o s mk).Total_Orders = (o.length : ℚ) ∧
    (analyze_store_performance_by_period o s mk).Avg_Order_Value =
      sumBy FinRow.subtotal o / (o.length : ℚ) := by
  obtain ⟨f1, f2, f3⟩ := financial_block_fields o ho
  have hno : sales_block s (financial_block o initMetrics) =
      financial_block o initMetrics :=
    sales_block_no_override s _ (by rw [f1]; exact hs)
  obtain ⟨c1, c2, c3⟩ := analyze_core_fields o s mk
  exact ⟨by rw [c1, hno, f1], by rw [c2, hno, f2], by rw [c3, hno, f3]⟩

-- Override-branch field characterization, when the sales-table gross
-- total strictly exceeds the financial total
-- (store_wise_analysis.py lines 204-207).
theorem storewise_override_fields (o : List FinRow) (s : List SalesRow)
    (mk : List MktRow) (hs' : s ≠ [])
    (hlt : sumBy FinRow.subtotal o < sumBy SalesRow.grossSales s) :
    (analyze_store_performance_by_period o s mk).Overall_Sales =
      sumBy SalesRow.grossSales s ∧
    (analyze_store_performance_by_period o s mk).Total_Orders =
      sumBy SalesRow.deliveredOrders s ∧
    (analyze_store_performance_by_period o s mk).Avg_Order_Value =
      sumBy SalesRow.aov s / (s.length : ℚ) := by
  have h' : sumBy SalesRow.grossSales s >
      (financial_block o initMetrics).Overall_Sales := by
    rw [financial_block_overall]; exact hlt
  obtain ⟨s1, s2, s3⟩ := sales_block_override s _ hs' h'
  obtain ⟨c1, c2, c3⟩ := analyze_core_fields o s mk
  exact ⟨by rw [c1, s1], by rw [c2, s2], by rw [c3, s3]⟩

-- Organic sales of the full per-store aggregation is always the
-- difference of its own overall and marketing-driven sales fields.
theorem analyze_organic_eq (o : List FinRow) (s : List SalesRow)
    (mk : List MktRow) :
    (analyze_store_performance_by_period o s mk).Organic_Sales =
      (analyze_store_performance_by_period o s mk).Overall_Sales -
        (analyze_store_performance_by_period o s mk).Marketing_Driven_Sales := by
  unfold analyze_store_performance_by_period
  rw [(roi_block_fields _).2.2.2.1, (percentage_block_fields _).2.2.2.1,
    (organic_block_fields _).2.2.2.1,
    (roi_block_fields _).1, (percentage_block_fields _).1,
    (organic_block_fields _).1,
    (roi_block_fields _).2.2.2.2, (percentage_block_fields _).2.2.2.2,
    (organic_block_fields _).2.2.2.2]

/-- C5 as stated is false: in the store-wise per-store aggregation the
sales-table override (two sales rows with gross 100/orders 1/AOV 100
and gross 100/orders 100/AOV 1, no financial rows) yields
Total_Orders = 101 > 0 but Avg_Order_Value = mean of the AOV column
= 101/2, which differs from Total_Sales / Total_Orders = 200/101. -/
theorem C5_counterexample :
    0 < (analyze_store_performance_by_period []
      [⟨100, 1, 100⟩, ⟨100, 100, 1⟩] []).Total_Orders ∧
    (analyze_store_performance_by_period []
      [⟨100, 1, 100⟩, ⟨100, 100, 1⟩] []).Avg_Order_Value ≠
      (analyze_store_performance_by_period []
        [⟨100, 1, 100⟩, ⟨100, 100, 1⟩] []).Overall_Sales /
        (analyze_store_performance_by_period []
          [⟨100, 1, 100⟩, ⟨100, 100, 1⟩] []).Total_Orders := by
  obtain ⟨e1, e2, e3⟩ := storewise_override_fields []
    [⟨100, 1, 100⟩, ⟨100, 100, 1⟩] [] (by simp)
    (by norm_num [sumBy])
  rw [e1, e2, e3]
  norm_num [sumBy]

/-- C5 amended: Avg_Order_Value equals Total_Sales / Total_Orders for
the August per-store financial aggregate (whose Total_Orders is the
group row count, always positive, so the division is safe) and for the
store-wise aggregate whenever the metrics come from the financial
branch (order rows present and the sales-table gross total not
exceeding the financial total); under the sales-table override,
Avg_Order_Value is instead the mean of the per-row AOV column.  When a
store has no order rows and no sales rows, Total_Orders and
Avg_Order_Value stay at their 0 defaults and no division is
performed. -/
theorem C5_avg_order_value (rows : List OrderRow) (o : List FinRow)
    (s : List SalesRow) (mk : List MktRow) (hrows : rows ≠ []) (ho : o ≠ [])
    (hs : sumBy SalesRow.grossSales s ≤ sumBy FinRow.subtotal o) :
    (0 < (analyze_august_financial_data rows).2.1 ∧
      (analyze_august_financial_data rows).2.2 =
        (analyze_august_financial_data rows).1 /
          (analyze_august_financial_data rows).2.1) ∧
    (0 < (analyze_store_performance_by_period o s mk).Total_Orders ∧
      (analyze_store_performance_by_period o s mk).Avg_Order_Value =
        (analyze_store_performance_by_period o s mk).Overall_Sales /
          (analyze_store_performance_by_period o s mk).Total_Orders) ∧
    (∀ mk2 : List MktRow,
      (analyze_store_performance_by_period [] [] mk2).Total_Orders = 0 ∧
      (analyze_store_performance_by_period [] [] mk2).Avg_Order_Value = 0) := by
  obtain ⟨h1, h2, h3⟩ := storewise_financial_fields o s mk ho hs
  have ho' : (0 : ℚ) < (o.length : ℚ) := by
    exact_mod_cast List.length_pos.mpr ho
  refine ⟨⟨?_, rfl⟩, ⟨?_, ?_⟩, ?_⟩
  · show (0 : ℚ) < (rows.length : ℚ)
    exact_mod_cast List.length_pos.mpr hrows
  · rw [h2]; exact ho'
  · rw [h3, h1, h2]
  · intro mk2
    obtain ⟨_, c2, c3⟩ := analyze_core_fields [] [] mk2
    exact ⟨by rw [c2]; rfl, by rw [c3]; rfl⟩

theorem C5_avg_order_value_witness :
    0 < (analyze_store_performance_by_period [⟨10, 7, 1, 1⟩] [] []).Total_Orders ∧
    (analyze_store_performance_by_period [⟨10, 7, 1, 1⟩] [] []).Avg_Order_Value =
      (analyze_store_performance_by_period [⟨10, 7, 1, 1⟩] [] []).Overall_Sales /
        (analyze_store_performance_by_period [⟨10, 7, 1, 1⟩] [] []).Total_Orders := by
  have h := C5_avg_order_value [⟨10, -3, 7⟩] [⟨10, 7, 1, 1⟩] [] []
    (by simp) (by simp) (by norm_num [sumBy])
  exact h.2.1

/-- C6 as stated is false: the August derived-sales step guards the
organic subtraction by total_sales > 0, so for total sales 0 and
marketing-driven sales 5 it reports Organic_Sales = 0 instead of the
negative difference -5. -/
theorem C6_counterexample :
    (create_comprehensive_august_analysis 0 0 5).2 = 0 ∧
    (create_comprehensive_august_analysis 0 0 5).1 - (5 : ℚ) = -5 ∧
    (create_comprehensive_august_analysis 0 0 5).2 ≠
      (create_comprehensive_august_analysis 0 0 5).1 - 5 := by
  norm_num [create_comprehensive_august_analysis]

/-- C6 amended: in the store-wise per-store aggregation Organic_Sales
always equals Overall_Sales minus Marketing_Driven_Sales, with no
clamping of negative values; in the August derived-sales step the same
identity holds only when the reconciled total is positive, and the
organic value is forced to 0 whenever the total is nonpositive. -/
theorem C6_organic_sales (o : List FinRow) (s : List SalesRow)
    (mk : List MktRow) (f st msales : ℚ) (h : 0 < max f st) :
    (analyze_store_performance_by_period o s mk).Organic_Sales =
      (analyze_store_performance_by_period o s mk).Overall_Sales -
        (analyze_store_performance_by_period o s mk).Marketing_Driven_Sales ∧
    (create_comprehensive_august_analysis f st msales).2 = max f st - msales ∧
    (∀ f2 st2 ms2 : ℚ, max f2 st2 ≤ 0 →
      (create_comprehensive_august_analysis f2 st2 ms2).2 = 0) := by
  refine ⟨analyze_organic_eq o s mk, ?_, ?_⟩
  · simp only [create_comprehensive_august_analysis]
    rw [if_pos h]
  · intro f2 st2 ms2 h2
    simp only [create_comprehensive_august_analysis]
    rw [if_neg (not_lt.mpr h2)]

theorem C6_organic_sales_witness :
    (analyze_store_performance_by_period [] [] [⟨7, 2, 1⟩]).Organic_Sales =
      (analyze_store_performance_by_period [] [] [⟨7, 2, 1⟩]).Overall_Sales -
        (analyze_store_performance_by_period [] [] [⟨7, 2, 1⟩]).Marketing_Driven_Sales ∧
    (create_comprehensive_august_analysis 3 1 10).2 = max (3 : ℚ) 1 - 10 := by
  have h := C6_organic_sales [] [] [⟨7, 2, 1⟩] 3 1 10 (by norm_num)
  exact ⟨h.1, h.2.1⟩

/-- C7: when both a financial-sourced sales total and a sales-table
gross total are present, the reported Overall_Sales is the maximum of
the two, both in the store-wise per-store aggregation and in the August
derived-sales step. -/
theorem C7_overall_sales_max (o : List FinRow) (s : List SalesRow)
    (mk : List MktRow) (f st msales : ℚ) (ho : o ≠ []) (hs' : s ≠ []) :
    (analyze_store_performance_by_period o s mk).Overall_Sales =
      max (sumBy FinRow.subtotal o) (sumBy SalesRow.grossSales s) ∧
    (create_comprehensive_august_analysis f st msales).1 = max f st := by
  constructor
  · rcases le_or_lt (sumBy SalesRow.grossSales s) (sumBy FinRow.subtotal o) with hc | hc
    · rw [(storewise_financial_fields o s mk ho hc).1, max_eq_left hc]
    · rw [(storewise_override_fields o s mk hs' hc).1, max_eq_right hc.le]
  · rfl

theorem C7_overall_sales_max_witness :
    (analyze_store_performance_by_period [⟨10, 7, 1, 1⟩] [⟨25, 3, 9⟩] []).Overall_Sales =
      max (sumBy FinRow.subtotal [⟨10, 7, 1, 1⟩])
        (sumBy SalesRow.grossSales [⟨25, 3, 9⟩]) ∧
    (create_comprehensive_august_analysis 4 9 2).1 = max (4 : ℚ) 9 := by
  have h := C7_overall_sales_max [⟨10, 7, 1, 1⟩] [⟨25, 3, 9⟩] [] 4 9 2
    (by simp) (by simp)
  exact ⟨h.1, h.2⟩

/-- C8 as stated is false: avg_commission_rate in
calculate_financial_period_metrics divides the absolute commission sum
by the subtotal sum with no guard (a single Order row with Subtotal 0
makes the denominator 0), and the per-campaign ROI divides by
Total_Cost with no guard (Total_Cost 0 makes the denominator 0);
neither site returns 0 there. -/
theorem C8_counterexample :
    avg_commission_rate [⟨0, -5, 0⟩] = none ∧ campaign_roi 10 0 = none := by
  constructor
  · simp [avg_commission_rate, sumBy]
  · simp [campaign_roi]

/-- C8 amended: the overall marketing-ROI computation, the store-wise
growth percentage and the TODC comparison-table delta percentage are
each guarded at the call site and return 0 on a nonpositive (resp.
zero) denominator; but avg_commission_rate in
calculate_financial_period_metrics and the per-campaign ROI in
analyze_campaign_performance divide by possibly-zero denominators with
no guard. -/
theorem C8_division_guards (cost sales p q p2 q2 : ℚ)
    (hc : cost ≤ 0) (hp : p ≤ 0) (h2 : p2 = 0) :
    calculate_marketing_roi_side cost sales = 0 ∧
    growth_percent p q = 0 ∧
    delta_percent_of p2 q2 = 0 := by
  refine ⟨?_, growth_percent_of_nonpos p q hp, ?_⟩
  · unfold calculate_marketing_roi_side
    rw [if_neg (not_lt.mpr hc)]
  · unfold delta_percent_of
    rw [h2]
    simp

theorem C8_division_guards_witness :
    calculate_marketing_roi_side 0 7 = 0 ∧
    growth_percent (-3) 4 = 0 ∧
    delta_percent_of 0 9 = 0 :=
  C8_division_guards 0 7 (-3) 4 0 9 le_rfl (by norm_num) rfl

/-- C9 as stated is false: the writer emits the sheets Pre_TODC_Metrics
and Post_TODC_Metrics, which the downstream insights reader never
opens, so the written sheet set does not coincide with the read set. -/
theorem C9_counterexample :
    "Pre_TODC_Metrics" ∈ export_to_excel_sheets ∧
    "Pre_TODC_Metrics" ∉ extract_insights_sheets := by
  decide

/-- C9 amended: every sheet name the downstream insights reader opens
is among the sheet names the store-wise Report Writer emits, but the
writer additionally emits Pre_TODC_Metrics and Post_TODC_Metrics, which
the reader does not open; the two sets are therefore not equal. -/
theorem C9_sheet_names :
    (extract_insights_sheets.all
      (fun sh => export_to_excel_sheets.contains sh)) = true ∧
    "Post_TODC_Metrics" ∈ export_to_excel_sheets ∧
    "Post_TODC_Metrics" ∉ extract_insights_sheets := by
  decide

end Biggee
